import Mathlib

/-!
Shallow embedding of the cart-to-order checkout core of the
`samlolz/Simulasi-UAS` e-commerce backend
(`ecommerce-app/backend/store/views.py` and `store/serializers.py`).

Prices are fixed-point decimals with two decimal places in the source;
they are embedded as integers counting cents (10.00 ↦ 1000).  Stock and
quantities are embedded as `Int` so that statements about stock going
negative or negative quantities being persisted are expressible.

The database is per-user (the claims all concern a single requesting
user): a keyed product table, the user's optional cart, and the user's
order list.  The contended-stock concurrency model for checkout races
lives in the `Race` namespace.
-/

namespace Store

structure Product where
  name : String
  price : Int
  stock : Int
deriving Repr, DecidableEq

structure CartItem where
  id : Nat
  productId : Nat
  quantity : Int
deriving Repr, DecidableEq

structure Cart where
  items : List CartItem
deriving Repr, DecidableEq

structure OrderItem where
  product_name : String
  product_price : Int
  quantity : Int
deriving Repr, DecidableEq

structure Order where
  user : Nat
  total_price : Int
  shipping_address : String
  phone : String
  status : String
  items : List OrderItem
deriving Repr, DecidableEq

structure DB where
  products : Nat → Option Product
  cart : Option Cart
  orders : List Order

/-- Name of the product row with the given id (`""` when absent). -/
def productName (db : DB) (pid : Nat) : String :=
  ((db.products pid).map Product.name).getD ""

/-- Price of the product row with the given id (`0` when absent). -/
def productPrice (db : DB) (pid : Nat) : Int :=
  ((db.products pid).map Product.price).getD 0

/-- Stock of the product row with the given id (`0` when absent). -/
def productStock (db : DB) (pid : Nat) : Int :=
  ((db.products pid).map Product.stock).getD 0

/-- The items of the user's cart (`[]` when the cart row is absent). -/
def cartItems (db : DB) : List CartItem :=
  (db.cart.map Cart.items).getD []

/-- Modelled from the spec: `Cart.total_price` is a property of
`store/models.py`, which is not under `src/`; the spec (§3, §4.1) defines
it as the sum over cart items of quantity × live product price,
recomputed on every call. -/
def Cart.total_price (db : DB) (c : Cart) : Int :=
  (c.items.map (fun it => it.quantity * productPrice db it.productId)).sum

/-- Modelled from the spec: `Cart.total_items` is a property of
`store/models.py`, which is not under `src/`; the spec (§3, §4.1) defines
it as the sum of the cart's item quantities. -/
def Cart.total_items (c : Cart) : Int :=
  (c.items.map CartItem.quantity).sum

/-- Modelled from the spec: `OrderItem.subtotal` is a property of
`store/models.py`, which is not under `src/`; the spec (§3) defines it as
`product_price × quantity` over the frozen snapshot fields. -/
def OrderItem.subtotal (oi : OrderItem) : Int :=
  oi.product_price * oi.quantity

/-- Modelled from the spec: the initial `Order.status` default lives in
`store/models.py`, which is not under `src/`; the spec (§4.4) says the
checkout only sets an initial "placed" state. -/
def orderInitialStatus : String := "placed"

/-- Python `str.strip()`: drop leading and trailing whitespace characters. -/
def stripChars (l : List Char) : List Char :=
  ((l.dropWhile Char.isWhitespace).reverse.dropWhile Char.isWhitespace).reverse

/-- `CheckoutSerializer.validate_shipping_address`: rejects when
`len(value.strip()) < 10`, together with the `CharField` bound
`max_length=500`. -/
def validShippingAddress (s : String) : Bool :=
  s.toList.length ≤ 500 && 10 ≤ (stripChars s.toList).length

/-- The digit characters of a phone string, as in
`''.join(filter(str.isdigit, value))`. -/
def phoneDigits (s : String) : List Char :=
  s.toList.filter Char.isDigit

/-- `CheckoutSerializer.validate_phone`: rejects when fewer than 10 digit
characters remain after stripping non-digits, together with the
`CharField` bound `max_length=20`. -/
def validPhone (s : String) : Bool :=
  s.toList.length ≤ 20 && 10 ≤ (phoneDigits s).length

/-- Refinement-comparison definition following the spec's words for the
address rule: "at least 10 non-whitespace characters after trimming"
(counting only non-whitespace characters).  To be compared with
`validShippingAddress`, which embeds the source. -/
def specAddressAccepts (s : String) : Bool :=
  10 ≤ ((stripChars s.toList).filter (fun c => !c.isWhitespace)).length

/-- `Cart.objects.get_or_create(user=request.user)`. -/
def ensureCart (db : DB) : DB :=
  match db.cart with
  | some _ => db
  | none => { db with cart := some ⟨[]⟩ }

/-- A fresh primary key for a new cart item row. -/
def freshItemId (items : List CartItem) : Nat :=
  (items.map CartItem.id).foldr max 0 + 1

inductive AddItemError where
  /-- `CartItemSerializer.validate_quantity`: quantity < 1 (HTTP 400). -/
  | invalidQuantity
  /-- `CartItemSerializer.validate`: unknown product_id raises a
  `ValidationError` with message "Product not found." (HTTP 400). -/
  | productNotFound
  /-- quantity exceeds current stock, from the serializer's stock check or
  the view's increment check (HTTP 400). -/
  | insufficientStock
  /-- the view's `Product.DoesNotExist` branch (HTTP 404). -/
  | productGone
deriving Repr, DecidableEq

/-- The HTTP status each add-item failure is reported with. -/
def addItemStatus : AddItemError → Nat
  | .invalidQuantity => 400
  | .productNotFound => 400
  | .insufficientStock => 400
  | .productGone => 404

/-- `CartViewSet.create` ("add item to cart"): get-or-create the cart, run
`CartItemSerializer` validation (quantity ≥ 1, product exists, quantity ≤
stock), fetch the product, then get-or-create the cart item; on an
existing item the incremented quantity is checked against stock before
`save()` — on failure nothing is saved. -/
def CartViewSet.create (db0 : DB) (product_id : Nat) (quantity : Int) :
    DB × Except AddItemError Unit :=
  let db := ensureCart db0
  if quantity < 1 then (db, .error .invalidQuantity)
  else
    match db.products product_id with
    | none => (db, .error .productNotFound)
    | some product =>
      if quantity > product.stock then (db, .error .insufficientStock)
      else
        match db.products product_id with
        | none => (db, .error .productGone)
        | some product2 =>
          let items := cartItems db
          match items.find? (fun it => it.productId = product_id) with
          | none =>
            let newItem : CartItem := ⟨freshItemId items, product_id, quantity⟩
            ({ db with cart := some ⟨items ++ [newItem]⟩ }, .ok ())
          | some ci =>
            if ci.quantity + quantity > product2.stock then
              (db, .error .insufficientStock)
            else
              let items2 := items.map (fun it =>
                if it.id = ci.id then { it with quantity := it.quantity + quantity } else it)
              ({ db with cart := some ⟨items2⟩ }, .ok ())

inductive UpdateItemError where
  /-- "item_id and quantity are required" (HTTP 400). -/
  | fieldsRequired
  /-- "Cart item not found" (HTTP 404). -/
  | itemNotFound
  /-- quantity exceeds current stock (HTTP 400). -/
  | insufficientStock
deriving Repr, DecidableEq

/-- Python falsiness of `request.data.get('item_id')`: absent or `0`. -/
def falsyNat : Option Nat → Bool
  | none => true
  | some n => n == 0

/-- Python falsiness of `request.data.get('quantity')`: absent or `0`. -/
def falsyInt : Option Int → Bool
  | none => true
  | some n => n == 0

/-- `CartViewSet.update_item`: rejects falsy `item_id`/`quantity` with the
required-fields error, looks the item up in the requesting user's cart,
checks the requested quantity against current stock, then overwrites. -/
def CartViewSet.update_item (db : DB) (item_id : Option Nat) (quantity : Option Int) :
    DB × Except UpdateItemError Unit :=
  if falsyNat item_id || falsyInt quantity then (db, .error .fieldsRequired)
  else
    match item_id, quantity with
    | some iid, some q =>
      match (cartItems db).find? (fun it => it.id = iid) with
      | none => (db, .error .itemNotFound)
      | some ci =>
        if q > productStock db ci.productId then (db, .error .insufficientStock)
        else
          let items2 := (cartItems db).map (fun it =>
            if it.id = iid then { it with quantity := q } else it)
          ({ db with cart := db.cart.map (fun _ => ⟨items2⟩) }, .ok ())
    | _, _ => (db, .error .fieldsRequired)

inductive CheckoutError where
  /-- `CheckoutSerializer` errors (HTTP 400). -/
  | validation
  /-- "Cart not found" (HTTP 404). -/
  | cartNotFound
  /-- "Cart is empty" (HTTP 400). -/
  | emptyCart
  /-- "Insufficient stock for &lt;name&gt;" (HTTP 400), naming the product. -/
  | insufficientStock (nm : String)
deriving Repr, DecidableEq

/-- Pointwise stock decrement of one product row:
`item.product.stock -= item.quantity; item.product.save()`. -/
def decStock (ps : Nat → Option Product) (pid : Nat) (q : Int) : Nat → Option Product :=
  fun pid2 =>
    if pid2 = pid then (ps pid2).map (fun p => { p with stock := p.stock - q })
    else ps pid2

/-- One iteration of the transaction-body loop over `cart.items.all()`:
create one `OrderItem` copying the product's current name and price, then
decrement the product's stock by the item quantity. -/
def bodyStep (acc : DB × List OrderItem) (it : CartItem) : DB × List OrderItem :=
  let d := acc.1
  let oi : OrderItem := ⟨productName d it.productId, productPrice d it.productId, it.quantity⟩
  ({ d with products := decStock d.products it.productId it.quantity }, acc.2 ++ [oi])

/-- The per-item portion of the checkout transaction body. -/
def checkoutBody (db : DB) (items : List CartItem) : DB × List OrderItem :=
  items.foldl bodyStep (db, [])

/-- `OrderViewSet.checkout`: serializer validation, cart lookup, emptiness
check, authoritative stock check, then the `transaction.atomic` body
(order creation with the cart's live total, per-item snapshot and stock
decrement, cart clear). -/
def OrderViewSet.checkout (db : DB) (user : Nat) (shipping_address phone : String) :
    DB × Except CheckoutError Order :=
  if !(validShippingAddress shipping_address && validPhone phone) then
    (db, .error .validation)
  else
    match db.cart with
    | none => (db, .error .cartNotFound)
    | some cart =>
      if cart.items.isEmpty then (db, .error .emptyCart)
      else
        match cart.items.find? (fun it => it.quantity > productStock db it.productId) with
        | some bad => (db, .error (.insufficientStock (productName db bad.productId)))
        | none =>
          let total := Cart.total_price db cart
          let r := checkoutBody db cart.items
          let order : Order :=
            ⟨user, total, shipping_address, phone, orderInitialStatus, r.2⟩
          ({ r.1 with cart := some ⟨[]⟩, orders := r.1.orders ++ [order] }, .ok order)

/-- Number of primitive row writes inside the `transaction.atomic` block:
one order insert, one order-item insert plus one product save per cart
item, and the cart clear. -/
def bodyWriteCount (items : List CartItem) : Nat :=
  1 + 2 * items.length + 1

/-- `transaction.atomic` semantics for checkout under a simulated crash:
aborting after `k` primitive writes with `k` strictly inside the body
rolls every write back, so the observable state is the pre-state and no
order is returned; a crash at or beyond the commit point leaves the fully
committed state.  `crash = none` is a run with no crash. -/
def checkoutWithCrash (db : DB) (user : Nat) (addr phone : String) (crash : Option Nat) :
    DB × Option Order :=
  match OrderViewSet.checkout db user addr phone with
  | (_, .error _) => (db, none)
  | (db2, .ok o) =>
    match crash with
    | none => (db2, some o)
    | some k =>
      match db.cart with
      | none => (db, none)
      | some cart =>
        if k < bodyWriteCount cart.items then (db, none) else (db2, some o)

/-- Admin/catalog mutation: reprice one product. -/
def setProductPrice (db : DB) (pid : Nat) (newPrice : Int) : DB :=
  { db with products := fun p =>
      if p = pid then (db.products p).map (fun pr => { pr with price := newPrice })
      else db.products p }

/-- Admin/catalog mutation: rename one product. -/
def setProductName (db : DB) (pid : Nat) (newName : String) : DB :=
  { db with products := fun p =>
      if p = pid then (db.products p).map (fun pr => { pr with name := newName })
      else db.products p }

/-- Admin/catalog mutation: delete one product row. -/
def deleteProduct (db : DB) (pid : Nat) : DB :=
  { db with products := fun p => if p = pid then none else db.products p }

/-- Total quantity the cart items order of one product. -/
def qtySum (items : List CartItem) (pid : Nat) : Int :=
  ((items.filter (fun it => it.productId = pid)).map CartItem.quantity).sum

end Store

namespace Store.Race

/-!
Micro-step model of two concurrent `OrderViewSet.checkout` calls
contending on one product, each with a one-item cart of quantity `q`.
Per the source, each call (1) reads `item.product.stock` in the
precondition loop and compares it with the quantity, (2) re-reads the
product inside the transaction body (`cart.items.all()` builds a fresh
queryset and `item.product` a fresh instance), and (3) writes back
`stock := read − q`.  No `select_for_update` or other row lock is taken,
so steps of the two calls may interleave.
-/

inductive Phase where
  | start
  | checked
  | readSecond (v : Int)
  | succeeded
  | failed
deriving Repr, DecidableEq

structure Thread where
  q : Int
  phase : Phase
deriving Repr, DecidableEq

structure ConcState where
  stock : Int
  t1 : Thread
  t2 : Thread
deriving Repr, DecidableEq

/-- One micro-step of a single in-flight checkout. -/
def stepThread (stock : Int) (t : Thread) : Int × Thread :=
  match t.phase with
  | .start =>
    if t.q > stock then (stock, { t with phase := .failed })
    else (stock, { t with phase := .checked })
  | .checked => (stock, { t with phase := .readSecond stock })
  | .readSecond v => (v - t.q, { t with phase := .succeeded })
  | .succeeded => (stock, t)
  | .failed => (stock, t)

/-- Scheduler step: `true` runs thread 1, `false` runs thread 2. -/
def step (s : ConcState) (which : Bool) : ConcState :=
  if which then
    let r := stepThread s.stock s.t1
    { s with stock := r.1, t1 := r.2 }
  else
    let r := stepThread s.stock s.t2
    { s with stock := r.1, t2 := r.2 }

/-- Run a schedule of interleaved micro-steps. -/
def run (s : ConcState) (sched : List Bool) : ConcState :=
  sched.foldl step s

/-- Initial state: stock `S`, both checkouts pending with their quantities. -/
def initRace (S q1 q2 : Int) : ConcState :=
  ⟨S, ⟨q1, .start⟩, ⟨q2, .start⟩⟩

end Store.Race

namespace Store

/-- The catalog of the spec §8 example: product 1 = A (price 10.00,
stock 5), product 2 = B (price 3.50, stock 1). -/
def exampleProducts : Nat → Option Product :=
  fun n =>
    if n = 1 then some ⟨"A", 1000, 5⟩
    else if n = 2 then some ⟨"B", 350, 1⟩
    else none

/-- The spec §8 example state: cart holding 2 × product 1 and 1 × product 2. -/
def exampleDB : DB :=
  ⟨exampleProducts, some ⟨[⟨1, 1, 2⟩, ⟨2, 2, 1⟩]⟩, []⟩

/-- Example state whose cart exists but is empty. -/
def emptyCartDB : DB :=
  ⟨exampleProducts, some ⟨[]⟩, []⟩

/-- Example state with a single cart item (id 1, product 1, quantity 2). -/
def oneItemDB : DB :=
  ⟨fun n => if n = 1 then some ⟨"A", 1000, 5⟩ else none, some ⟨[⟨1, 1, 2⟩]⟩, []⟩

/-- The order a successful checkout of `cart` creates, expressed over the
pre-checkout state: the cart's live total, the given address and phone,
the initial status, and one frozen snapshot line per cart item. -/
def orderOf (db : DB) (user : Nat) (addr phone : String) (cart : Cart) : Order :=
  ⟨user, Cart.total_price db cart, addr, phone, orderInitialStatus,
    cart.items.map (fun it =>
      ⟨productName db it.productId, productPrice db it.productId, it.quantity⟩)⟩

lemma qtySum_cons (it : CartItem) (rest : List CartItem) (pid : Nat) :
    qtySum (it :: rest) pid
      = (if it.productId = pid then it.quantity else 0) + qtySum rest pid := by
  by_cases h : it.productId = pid <;> simp [qtySum, List.filter_cons, h]

lemma foldl_bodyStep_fst (items : List CartItem) (d : DB) (ois ois2 : List OrderItem) :
    (items.foldl bodyStep (d, ois)).1 = (items.foldl bodyStep (d, ois2)).1 := by
  induction items generalizing d ois ois2 with
  | nil => rfl
  | cons it rest ih =>
    simp only [List.foldl_cons]
    exact ih _ _ _

lemma checkoutBody_cons (db : DB) (it : CartItem) (rest : List CartItem) :
    (checkoutBody db (it :: rest)).1
      = (checkoutBody { db with products := decStock db.products it.productId it.quantity } rest).1 := by
  show (rest.foldl bodyStep (bodyStep (db, []) it)).1 = _
  exact foldl_bodyStep_fst ..

lemma checkoutBody_products (items : List CartItem) (db : DB) (pid : Nat) :
    (checkoutBody db items).1.products pid
      = (db.products pid).map (fun p => { p with stock := p.stock - qtySum items pid }) := by
  induction items generalizing db with
  | nil => cases h : db.products pid <;> simp [checkoutBody, qtySum, h]
  | cons it rest ih =>
    rw [checkoutBody_cons, ih, qtySum_cons]
    by_cases h : pid = it.productId
    · subst h
      cases h2 : db.products it.productId with
      | none => simp [decStock, h2]
      | some p => simp [decStock, h2, Product.mk.injEq, sub_sub]
    · have h2 : (it.productId = pid) ↔ False := by
        constructor
        · intro hx; exact h hx.symm
        · intro hx; exact hx.elim
      simp [decStock, h, h2]

lemma checkoutBody_orders (items : List CartItem) (db : DB) :
    (checkoutBody db items).1.orders = db.orders := by
  induction items generalizing db with
  | nil => rfl
  | cons it rest ih => rw [checkoutBody_cons, ih]

lemma checkoutBody_cart (items : List CartItem) (db : DB) :
    (checkoutBody db items).1.cart = db.cart := by
  induction items generalizing db with
  | nil => rfl
  | cons it rest ih => rw [checkoutBody_cons, ih]

lemma decStock_name (db : DB) (pid : Nat) (q : Int) (pid2 : Nat) :
    productName { db with products := decStock db.products pid q } pid2
      = productName db pid2 := by
  by_cases h : pid2 = pid
  · subst h
    cases h2 : db.products pid2 <;> simp [productName, decStock, h2]
  · simp [productName, decStock, h]

lemma decStock_price (db : DB) (pid : Nat) (q : Int) (pid2 : Nat) :
    productPrice { db with products := decStock db.products pid q } pid2
      = productPrice db pid2 := by
  by_cases h : pid2 = pid
  · subst h
    cases h2 : db.products pid2 <;> simp [productPrice, decStock, h2]
  · simp [productPrice, decStock, h]

lemma foldl_bodyStep_snd (items : List CartItem) (db : DB) (ois : List OrderItem) :
    (items.foldl bodyStep (db, ois)).2
      = ois ++ items.map (fun it =>
          (⟨productName db it.productId, productPrice db it.productId, it.quantity⟩ : OrderItem)) := by
  induction items generalizing db ois with
  | nil => simp
  | cons it rest ih =>
    simp only [List.foldl_cons, List.map_cons]
    have hstep : bodyStep (db, ois) it
        = ({ db with products := decStock db.products it.productId it.quantity },
           ois ++ [⟨productName db it.productId, productPrice db it.productId, it.quantity⟩]) := rfl
    rw [hstep, ih]
    have hmap : rest.map (fun it2 =>
          (⟨productName { db with products := decStock db.products it.productId it.quantity } it2.productId,
            productPrice { db with products := decStock db.products it.productId it.quantity } it2.productId,
            it2.quantity⟩ : OrderItem))
        = rest.map (fun it2 =>
          (⟨productName db it2.productId, productPrice db it2.productId, it2.quantity⟩ : OrderItem)) := by
      apply List.map_congr_left
      intro it2 _
      rw [decStock_name, decStock_price]
    rw [hmap]
    simp

lemma checkoutBody_snd (db : DB) (items : List CartItem) :
    (checkoutBody db items).2
      = items.map (fun it =>
          (⟨productName db it.productId, productPrice db it.productId, it.quantity⟩ : OrderItem)) := by
  simpa using foldl_bodyStep_snd items db []

lemma ensureCart_cartItems (db : DB) : cartItems (ensureCart db) = cartItems db := by
  cases h : db.cart <;> simp [ensureCart, cartItems, h]

lemma ensureCart_products (db : DB) : (ensureCart db).products = db.products := by
  cases h : db.cart <;> simp [ensureCart, h]

lemma checkout_ok_char (db : DB) (u : Nat) (a p : String) (cart : Cart)
    (hv : validShippingAddress a = true) (hp : validPhone p = true)
    (hc : db.cart = some cart) (hne : cart.items ≠ [])
    (hs : cart.items.find? (fun it => it.quantity > productStock db it.productId) = none) :
    OrderViewSet.checkout db u a p
      = ({ (checkoutBody db cart.items).1 with
             cart := some ⟨[]⟩,
             orders := db.orders ++ [orderOf db u a p cart] },
         .ok (orderOf db u a p cart)) := by
  have hne2 : cart.items.isEmpty = false := by
    cases hE : cart.items.isEmpty
    · rfl
    · exact absurd (List.isEmpty_iff.mp hE) hne
  simp only [OrderViewSet.checkout, hv, hp, hc, hne2, hs, Bool.and_self, Bool.not_true,
    Bool.false_eq_true, if_false]
  simp [checkoutBody_orders, checkoutBody_snd, orderOf]

lemma checkout_dichotomy (db : DB) (u : Nat) (a p : String) :
    (∃ e, OrderViewSet.checkout db u a p = (db, .error e)) ∨
    (∃ cart, db.cart = some cart ∧ cart.items ≠ [] ∧
      OrderViewSet.checkout db u a p
        = ({ (checkoutBody db cart.items).1 with
               cart := some ⟨[]⟩,
               orders := db.orders ++ [orderOf db u a p cart] },
           .ok (orderOf db u a p cart))) := by
  by_cases hv : validShippingAddress a = true
  case neg =>
    have hv2 : validShippingAddress a = false := by
      revert hv; cases validShippingAddress a <;> simp
    exact Or.inl ⟨.validation, by simp [OrderViewSet.checkout, hv2]⟩
  case pos =>
  by_cases hp : validPhone p = true
  case neg =>
    have hp2 : validPhone p = false := by
      revert hp; cases validPhone p <;> simp
    exact Or.inl ⟨.validation, by simp [OrderViewSet.checkout, hv, hp2]⟩
  case pos =>
  cases hc : db.cart with
  | none => exact Or.inl ⟨.cartNotFound, by simp [OrderViewSet.checkout, hv, hp, hc]⟩
  | some cart =>
    by_cases hne : cart.items = []
    · exact Or.inl ⟨.emptyCart, by simp [OrderViewSet.checkout, hv, hp, hc, hne]⟩
    · cases hf : cart.items.find? (fun it => it.quantity > productStock db it.productId) with
      | some bad =>
        refine Or.inl ⟨.insufficientStock (productName db bad.productId), ?_⟩
        have hne2 : cart.items.isEmpty = false := by
          cases hE : cart.items.isEmpty
          · rfl
          · exact absurd (List.isEmpty_iff.mp hE) hne
        simp [OrderViewSet.checkout, hv, hp, hc, hne2, hf]
      | none =>
        exact Or.inr ⟨cart, rfl, hne, checkout_ok_char db u a p cart hv hp hc hne hf⟩

lemma create_never_productGone (db0 : DB) (pid : Nat) (q : Int) :
    (CartViewSet.create db0 pid q).2 ≠ .error .productGone := by
  unfold CartViewSet.create
  by_cases hq : q < 1
  · simp [hq]
  · cases h : (ensureCart db0).products pid with
    | none => simp [hq, h]
    | some prod =>
      by_cases hstk : q > prod.stock
      · simp [hq, h, hstk]
      · cases hfind : (cartItems (ensureCart db0)).find? (fun it => it.productId = pid) with
        | none => simp [hq, h, hstk, hfind]
        | some ci =>
          by_cases hinc : ci.quantity + q > prod.stock
          · simp [hq, h, hstk, hfind, hinc]
          · simp [hq, h, hstk, hfind, hinc]

end Store

namespace Store

/-- **C2** (the code violates the claim): with initial stock 1 and two
concurrent quantity-1 checkouts of the same product, the interleaving in
which both precondition stock checks run before either transaction body
commits lets both checkouts succeed, and the second body's re-read and
write drive the stock to −1.  The claim demands that exactly S = 1
succeed, that the other fail with InsufficientStock, and that stock never
go below zero; the source takes no row lock (`select_for_update`) on the
Product row, so this schedule is admissible. -/
theorem checkout_race_oversells :
    Race.run (Race.initRace 1 1 1) [true, false, true, true, false, false]
      = ⟨-1, ⟨1, .succeeded⟩, ⟨1, .succeeded⟩⟩ ∧
    (Race.run (Race.initRace 1 1 1) [true, false, true, true, false, false]).stock < 0 := by
  constructor
  · rfl
  · decide

/-- **C7** counterexample: the address `"a        bc"` (three
non-whitespace characters separated by interior spaces, trimmed length
11) is accepted by the source's validator, which counts every character
of the trimmed string, while the claim's rule of "at least 10
non-whitespace characters" would reject it. -/
theorem address_validation_counterexample :
    validShippingAddress "a        bc" = true ∧
    specAddressAccepts "a        bc" = false := by
  constructor
  · decide
  · decide

/-- **C7** (amended): checkout accepts a shipping address iff its raw
length is ≤ 500 and its whitespace-trimmed length is at least 10 —
interior whitespace counts toward the 10 — and accepts a phone iff its
raw length is ≤ 20 and it contains at least 10 digit characters; any
violation fails with ValidationError before any other precondition is
examined. -/
theorem checkout_input_validation_amended (db : DB) (u : Nat) (a p : String) :
    (validShippingAddress a = true ↔ (a.toList.length ≤ 500 ∧ 10 ≤ (stripChars a.toList).length)) ∧
    (validPhone p = true ↔ (p.toList.length ≤ 20 ∧ 10 ≤ (phoneDigits p).length)) ∧
    ((validShippingAddress a && validPhone p) = false →
      OrderViewSet.checkout db u a p = (db, .error .validation)) := by
  refine ⟨?_, ?_, ?_⟩
  · simp [validShippingAddress]
  · simp [validPhone]
  · intro h
    simp [OrderViewSet.checkout, h]

/-- Witness for the amended **C7** theorem at a concrete invalid input. -/
theorem checkout_input_validation_amended_witness :
    ((validShippingAddress "Jalan Merdeka 17, Bandung" && validPhone "0812") = false) ∧
    OrderViewSet.checkout exampleDB 7 "Jalan Merdeka 17, Bandung" "0812"
      = (exampleDB, .error .validation) :=
  have h := checkout_input_validation_amended exampleDB 7 "Jalan Merdeka 17, Bandung" "0812"
  ⟨by decide, h.2.2 (by decide)⟩

/-- **C10** counterexample: on a cart item of quantity 2 (product stock
5), `update_item` with quantity −1 is not treated as missing (−1 is
truthy in Python), passes the stock check (−1 > 5 is false), and persists
the quantity −1, which is below 1. -/
theorem update_item_persists_negative_quantity :
    ((CartViewSet.update_item oneItemDB (some 1) (some (-1))).2 = .ok ()) ∧
    cartItems (CartViewSet.update_item oneItemDB (some 1) (some (-1))).1 = [⟨1, 1, -1⟩] ∧
    ((-1 : Int) < 1) := by
  refine ⟨rfl, rfl, ?_⟩
  decide

/-- **C10** (amended): `update_item` treats a quantity of 0 or an absent
quantity as a missing required field and rejects the request with the
required-fields error before any lookup or stock check; consequently the
NotFound and InsufficientStock branches are reached only for requests
carrying a nonzero quantity, and a successful update always writes the
nonzero requested quantity — but a negative quantity is accepted and
persisted, so quantities below 1 (other than 0) can be stored. -/
theorem update_item_zero_required (db : DB) (iid : Option Nat) (q : Option Int) :
    (CartViewSet.update_item db iid none = (db, .error .fieldsRequired)) ∧
    (CartViewSet.update_item db iid (some 0) = (db, .error .fieldsRequired)) ∧
    ((CartViewSet.update_item db iid q).2 ≠ .error .fieldsRequired →
      ∃ i n, iid = some i ∧ i ≠ 0 ∧ q = some n ∧ n ≠ 0) ∧
    (∀ db2, CartViewSet.update_item db iid q = (db2, .ok ()) →
      ∃ i n, iid = some i ∧ q = some n ∧ n ≠ 0 ∧
        cartItems db2 = (cartItems db).map (fun it =>
          if it.id = i then { it with quantity := n } else it)) := by
  refine ⟨?_, ?_, ?_, ?_⟩
  · simp [CartViewSet.update_item, falsyInt]
  · simp [CartViewSet.update_item, falsyInt]
  · intro h
    cases iid with
    | none =>
      exact absurd (show (CartViewSet.update_item db none q).2 = .error .fieldsRequired by
        simp [CartViewSet.update_item, falsyNat]) h
    | some i =>
      cases q with
      | none =>
        exact absurd (show (CartViewSet.update_item db (some i) none).2 = .error .fieldsRequired by
          simp [CartViewSet.update_item, falsyInt]) h
      | some n =>
        by_cases hi : i = 0
        · subst hi
          exact absurd (show (CartViewSet.update_item db (some 0) (some n)).2
              = .error .fieldsRequired by
            simp [CartViewSet.update_item, falsyNat]) h
        · by_cases hn : n = 0
          · subst hn
            exact absurd (show (CartViewSet.update_item db (some i) (some 0)).2
                = .error .fieldsRequired by
              simp [CartViewSet.update_item, falsyInt]) h
          · exact ⟨i, n, rfl, hi, rfl, hn⟩
  · intro db2 hok
    cases iid with
    | none => exact absurd hok (by simp [CartViewSet.update_item, falsyNat])
    | some i =>
      cases q with
      | none => exact absurd hok (by simp [CartViewSet.update_item, falsyInt])
      | some n =>
        by_cases hi : i = 0
        · subst hi
          exact absurd hok (by simp [CartViewSet.update_item, falsyNat])
        · by_cases hn : n = 0
          · subst hn
            exact absurd hok (by simp [CartViewSet.update_item, falsyInt])
          · refine ⟨i, n, rfl, rfl, hn, ?_⟩
            have hfalsy : (falsyNat (some i) || falsyInt (some n)) = false := by
              simp [falsyNat, falsyInt, hi, hn]
            cases hfind : (cartItems db).find? (fun it => it.id = i) with
            | none =>
              exact absurd hok (by simp [CartViewSet.update_item, hfalsy, hfind])
            | some ci =>
              have hcart : ∃ c, db.cart = some c := by
                cases hc : db.cart with
                | none => simp [cartItems, hc] at hfind
                | some c => exact ⟨c, rfl⟩
              obtain ⟨c, hc⟩ := hcart
              by_cases hstk : n > productStock db ci.productId
              · exact absurd hok (by simp [CartViewSet.update_item, hfalsy, hfind, hstk])
              · have hdb2 := hok
                simp [CartViewSet.update_item, hfalsy, hfind, hstk] at hdb2
                rw [← hdb2]
                simp [cartItems, hc]

end Store

namespace Store

/-- **C6** counterexample: adding product id 99 (no such product) to the
cart fails with the serializer's "Product not found." validation error,
which the HTTP boundary reports as 400 — not as 404 as the claim states.
The view's `Product.DoesNotExist` 404 branch is unreachable because
serializer validation has already required the product to exist. -/
theorem add_item_unknown_product_is_400 :
    (CartViewSet.create exampleDB 99 1).2 = .error .productNotFound ∧
    addItemStatus .productNotFound = 400 ∧
    ¬ addItemStatus .productNotFound = 404 := by
  refine ⟨rfl, rfl, ?_⟩
  decide

/-- **C6** (amended): an add_item request whose product_id refers to no
existing Product fails with the serializer's ValidationError (message
"Product not found."), reported at the HTTP boundary as 400 like the
other validation failures; the view's 404 `Product.DoesNotExist` branch
is dead code and is never returned. -/
theorem add_item_unknown_product_amended (db : DB) (pid : Nat) (q : Int)
    (hq : 1 ≤ q) (hmissing : db.products pid = none) :
    CartViewSet.create db pid q = (ensureCart db, .error .productNotFound) ∧
    addItemStatus .productNotFound = 400 ∧
    (∀ db0 pid0 q0, (CartViewSet.create db0 pid0 q0).2 ≠ .error .productGone) := by
  refine ⟨?_, rfl, ?_⟩
  · have hq2 : ¬ q < 1 := by omega
    have hm2 : (ensureCart db).products pid = none := by
      rw [ensureCart_products]; exact hmissing
    simp [CartViewSet.create, hq2, hm2]
  · intro db0 pid0 q0
    exact create_never_productGone db0 pid0 q0

/-- Witness for the amended **C6** theorem at a concrete unknown product. -/
theorem add_item_unknown_product_amended_witness :
    (1 : Int) ≤ 1 ∧ exampleDB.products 99 = none ∧
    CartViewSet.create exampleDB 99 1 = (ensureCart exampleDB, .error .productNotFound) :=
  have h := add_item_unknown_product_amended exampleDB 99 1 (by decide) rfl
  ⟨by decide, rfl, h.1⟩

/-- **C5**: add_item has increment-on-existing semantics and is
all-or-nothing: with a valid quantity (≥ 1) on an existing product and a
well-formed cart, when no CartItem for the product exists a new one with
the requested quantity is inserted if it fits in stock; when one exists
its quantity is incremented by the requested amount if the sum fits in
stock; and whenever the resulting quantity would exceed the product's
current stock the operation fails with InsufficientStock and the cart's
items are exactly as before (and get-or-create of the cart itself never
changes the items). -/
theorem add_item_increment_all_or_nothing (db : DB) (pid : Nat) (q : Int) (prod : Product)
    (hq : 1 ≤ q) (hprod : db.products pid = some prod)
    (hwf : ∀ it ∈ cartItems db, 1 ≤ it.quantity) :
    cartItems (ensureCart db) = cartItems db ∧
    (match (cartItems db).find? (fun it => it.productId = pid) with
     | none =>
        (prod.stock < q →
          CartViewSet.create db pid q = (ensureCart db, .error .insufficientStock)) ∧
        (q ≤ prod.stock →
          CartViewSet.create db pid q
            = ({ ensureCart db with
                   cart := some ⟨cartItems db ++ [⟨freshItemId (cartItems db), pid, q⟩]⟩ },
               .ok ()))
     | some ci =>
        (prod.stock < ci.quantity + q →
          CartViewSet.create db pid q = (ensureCart db, .error .insufficientStock)) ∧
        (ci.quantity + q ≤ prod.stock →
          CartViewSet.create db pid q
            = ({ ensureCart db with
                   cart := some ⟨(cartItems db).map (fun it =>
                     if it.id = ci.id then { it with quantity := it.quantity + q } else it)⟩ },
               .ok ()))) := by
  have hq2 : ¬ q < 1 := by omega
  have hm2 : (ensureCart db).products pid = some prod := by
    rw [ensureCart_products]; exact hprod
  have hitems := ensureCart_cartItems db
  refine ⟨hitems, ?_⟩
  cases hfind : (cartItems db).find? (fun it => it.productId = pid) with
  | none =>
    constructor
    · intro hlt
      have hstk : q > prod.stock := by omega
      simp [CartViewSet.create, hq2, hm2, hstk]
    · intro hle
      have hstk : ¬ q > prod.stock := by omega
      simp [CartViewSet.create, hq2, hm2, hstk, hitems, hfind]
  | some ci =>
    have hci : 1 ≤ ci.quantity := hwf ci (List.mem_of_find?_eq_some hfind)
    constructor
    · intro hlt
      by_cases hstk : q > prod.stock
      · simp [CartViewSet.create, hq2, hm2, hstk]
      · have hinc : ci.quantity + q > prod.stock := by omega
        simp [CartViewSet.create, hq2, hm2, hstk, hitems, hfind, hinc]
    · intro hle
      have hstk : ¬ q > prod.stock := by omega
      have hinc : ¬ ci.quantity + q > prod.stock := by omega
      simp [CartViewSet.create, hq2, hm2, hstk, hitems, hfind, hinc]

/-- Witness for **C5**: adding 4 more of product 1 (stock 5, already 2 in
the cart) fails with InsufficientStock and leaves the cart items as they
were. -/
theorem add_item_increment_all_or_nothing_witness :
    (1 : Int) ≤ 4 ∧ exampleDB.products 1 = some ⟨"A", 1000, 5⟩ ∧
    CartViewSet.create exampleDB 1 4 = (ensureCart exampleDB, .error .insufficientStock) ∧
    cartItems (ensureCart exampleDB) = cartItems exampleDB :=
  have h := add_item_increment_all_or_nothing exampleDB 1 4 ⟨"A", 1000, 5⟩
    (by decide) rfl (by decide)
  ⟨by decide, rfl, h.2.1 (by decide), h.1⟩

end Store

namespace Store

/-- **C4**: checkout checks its preconditions in a fixed fail-fast order —
address/phone validation (ValidationError), then cart existence
(NotFound), then cart non-emptiness (EmptyCart: an empty-cart checkout
always fails and never creates an Order), then the per-item stock check
(InsufficientStock, naming the first offending item's product); the first
violated precondition determines the error, and every precondition
failure returns the state unchanged. -/
theorem checkout_precondition_order (db : DB) (u : Nat) (a p : String) :
    ((validShippingAddress a && validPhone p) = false →
      OrderViewSet.checkout db u a p = (db, .error .validation)) ∧
    ((validShippingAddress a && validPhone p) = true → db.cart = none →
      OrderViewSet.checkout db u a p = (db, .error .cartNotFound)) ∧
    (∀ cart, (validShippingAddress a && validPhone p) = true → db.cart = some cart →
      cart.items = [] →
      OrderViewSet.checkout db u a p = (db, .error .emptyCart)) ∧
    (∀ cart bad, (validShippingAddress a && validPhone p) = true → db.cart = some cart →
      cart.items.find? (fun it => it.quantity > productStock db it.productId) = some bad →
      OrderViewSet.checkout db u a p
        = (db, .error (.insufficientStock (productName db bad.productId)))) ∧
    (∀ e, (OrderViewSet.checkout db u a p).2 = .error e →
      (OrderViewSet.checkout db u a p).1 = db) := by
  refine ⟨?_, ?_, ?_, ?_, ?_⟩
  · intro h
    simp [OrderViewSet.checkout, h]
  · intro hv hc
    rw [Bool.and_eq_true] at hv
    simp [OrderViewSet.checkout, hv.1, hv.2, hc]
  · intro cart hv hc hempty
    rw [Bool.and_eq_true] at hv
    simp [OrderViewSet.checkout, hv.1, hv.2, hc, hempty]
  · intro cart bad hv hc hfind
    rw [Bool.and_eq_true] at hv
    have hne : cart.items ≠ [] := by
      intro hnil
      rw [hnil] at hfind
      simp at hfind
    have hne2 : cart.items.isEmpty = false := by
      cases hE : cart.items.isEmpty
      · rfl
      · exact absurd (List.isEmpty_iff.mp hE) hne
    simp [OrderViewSet.checkout, hv.1, hv.2, hc, hne2, hfind]
  · intro e he
    rcases checkout_dichotomy db u a p with ⟨e2, heq⟩ | ⟨cart, hc, hne, hok⟩
    · rw [heq]
    · rw [hok] at he
      simp at he

/-- Witness for **C4**: a checkout on an existing but empty cart with
valid inputs fails with EmptyCart and changes nothing. -/
theorem checkout_precondition_order_witness :
    ((validShippingAddress "Jalan Merdeka 17, Bandung" && validPhone "081234567890") = true) ∧
    emptyCartDB.cart = some ⟨[]⟩ ∧
    OrderViewSet.checkout emptyCartDB 7 "Jalan Merdeka 17, Bandung" "081234567890"
      = (emptyCartDB, .error .emptyCart) :=
  have h := checkout_precondition_order emptyCartDB 7 "Jalan Merdeka 17, Bandung" "081234567890"
  ⟨by decide, rfl, h.2.2.1 ⟨[]⟩ (by decide) rfl rfl⟩

/-- **C1**: checkout is atomic under simulated crashes: aborting after any
number `k` of primitive writes inside the `transaction.atomic` body
leaves either the untouched pre-state with no order, or the fully
committed state in which the order (with its item snapshots) is appended,
every product's stock is decremented by the total quantity the cart
ordered of it, and the cart has zero items — never a partial state. -/
theorem checkout_atomic_all_or_nothing (db : DB) (u : Nat) (a p : String) (k : Nat) :
    checkoutWithCrash db u a p (some k) = (db, none) ∨
    (∃ cart o, db.cart = some cart ∧
      checkoutWithCrash db u a p (some k) = ((OrderViewSet.checkout db u a p).1, some o) ∧
      (OrderViewSet.checkout db u a p).2 = .ok o ∧
      (OrderViewSet.checkout db u a p).1.cart = some ⟨[]⟩ ∧
      (OrderViewSet.checkout db u a p).1.orders = db.orders ++ [o] ∧
      o.items = cart.items.map (fun it =>
        (⟨productName db it.productId, productPrice db it.productId, it.quantity⟩ : OrderItem)) ∧
      (∀ pid, (OrderViewSet.checkout db u a p).1.products pid
        = (db.products pid).map (fun pr => { pr with stock := pr.stock - qtySum cart.items pid }))) := by
  rcases checkout_dichotomy db u a p with ⟨e, he⟩ | ⟨cart, hc, hne, hok⟩
  · left
    unfold checkoutWithCrash
    rw [he]
  · by_cases hk : k < bodyWriteCount cart.items
    · left
      unfold checkoutWithCrash
      rw [hok, hc]
      simp [hk]
    · right
      refine ⟨cart, orderOf db u a p cart, hc, ?_, ?_, ?_, ?_, ?_, ?_⟩
      · unfold checkoutWithCrash
        rw [hok, hc]
        simp [hk]
      · rw [hok]
      · rw [hok]
      · rw [hok]
      · rfl
      · intro pid
        rw [hok]
        exact checkoutBody_products cart.items db pid

end Store

namespace Store

lemma setProductPrice_productPrice (db : DB) (pid : Nat) (pr : Product) (v : Int)
    (hp : db.products pid = some pr) (pid2 : Nat) :
    productPrice (setProductPrice db pid v) pid2
      = if pid2 = pid then v else productPrice db pid2 := by
  by_cases h : pid2 = pid
  · subst h
    simp [productPrice, setProductPrice, hp]
  · simp [productPrice, setProductPrice, h]

/-- **C3**: a successful checkout on a non-empty cart whose items all fit
in stock creates the order with total_price equal to the sum over cart
items of quantity × the product's live price, carrying the given
shipping_address and phone, the initial status and the requesting user;
decrements each product's stock by exactly the quantity the cart ordered
of it (other products untouched); and leaves the cart with zero items. -/
theorem checkout_success_effects (db : DB) (u : Nat) (a p : String) (cart : Cart)
    (hv : validShippingAddress a = true) (hp : validPhone p = true)
    (hc : db.cart = some cart) (hne : cart.items ≠ [])
    (hs : ∀ it ∈ cart.items, it.quantity ≤ productStock db it.productId) :
    ∃ db2, OrderViewSet.checkout db u a p = (db2, .ok (orderOf db u a p cart)) ∧
      (orderOf db u a p cart).total_price
        = (cart.items.map (fun it => it.quantity * productPrice db it.productId)).sum ∧
      (orderOf db u a p cart).shipping_address = a ∧
      (orderOf db u a p cart).phone = p ∧
      (orderOf db u a p cart).status = orderInitialStatus ∧
      (orderOf db u a p cart).user = u ∧
      db2.cart = some ⟨[]⟩ ∧
      db2.orders = db.orders ++ [orderOf db u a p cart] ∧
      (∀ pid, db2.products pid
        = (db.products pid).map (fun pr => { pr with stock := pr.stock - qtySum cart.items pid })) := by
  have hf : cart.items.find? (fun it => it.quantity > productStock db it.productId) = none := by
    rw [List.find?_eq_none]
    intro it hit
    have hle := hs it hit
    simp only [decide_eq_true_eq]
    omega
  have hok := checkout_ok_char db u a p cart hv hp hc hne hf
  exact ⟨_, hok, rfl, rfl, rfl, rfl, rfl, rfl, rfl,
    fun pid => checkoutBody_products cart.items db pid⟩

/-- Witness for **C3**: the spec §8 example — cart 2 × A (10.00, stock 5)
and 1 × B (3.50, stock 1); checkout total 23.50, stocks 3 and 0
afterwards, and the cart empty. -/
theorem checkout_success_effects_witness :
    validShippingAddress "Jalan Merdeka 17, Bandung" = true ∧
    validPhone "081234567890" = true ∧
    exampleDB.cart = some ⟨[⟨1, 1, 2⟩, ⟨2, 2, 1⟩]⟩ ∧
    (∀ it ∈ ([⟨1, 1, 2⟩, ⟨2, 2, 1⟩] : List CartItem),
      it.quantity ≤ productStock exampleDB it.productId) ∧
    (orderOf exampleDB 7 "Jalan Merdeka 17, Bandung" "081234567890"
      ⟨[⟨1, 1, 2⟩, ⟨2, 2, 1⟩]⟩).total_price = 2350 ∧
    (OrderViewSet.checkout exampleDB 7 "Jalan Merdeka 17, Bandung" "081234567890").2
      = .ok (orderOf exampleDB 7 "Jalan Merdeka 17, Bandung" "081234567890"
          ⟨[⟨1, 1, 2⟩, ⟨2, 2, 1⟩]⟩) ∧
    productStock (OrderViewSet.checkout exampleDB 7 "Jalan Merdeka 17, Bandung"
      "081234567890").1 1 = 3 ∧
    productStock (OrderViewSet.checkout exampleDB 7 "Jalan Merdeka 17, Bandung"
      "081234567890").1 2 = 0 ∧
    cartItems (OrderViewSet.checkout exampleDB 7 "Jalan Merdeka 17, Bandung"
      "081234567890").1 = [] := by
  have h := checkout_success_effects exampleDB 7 "Jalan Merdeka 17, Bandung" "081234567890"
    ⟨[⟨1, 1, 2⟩, ⟨2, 2, 1⟩]⟩ (by decide) (by decide) rfl (by decide) (by decide)
  obtain ⟨db2, hok, htot, _, _, _, _, hcart, _, hprods⟩ := h
  refine ⟨by decide, by decide, rfl, by decide, htot.trans (by decide), ?_, ?_, ?_, ?_⟩
  · rw [hok]
  · rw [hok]
    show productStock db2 1 = 3
    unfold productStock
    rw [hprods 1]
    decide
  · rw [hok]
    show productStock db2 2 = 0
    unfold productStock
    rw [hprods 2]
    decide
  · rw [hok]
    show cartItems db2 = []
    unfold cartItems
    rw [hcart]
    rfl

end Store

namespace Store

/-- **C8**: each OrderItem created by a checkout is a frozen snapshot —
its product_name and product_price equal the referenced Product's name
and price at order-creation time and its subtotal is product_price ×
quantity — and subsequently repricing, renaming or deleting any Product
leaves the stored orders (hence every existing OrderItem) unchanged. -/
theorem orderitem_snapshot_frozen (db db2 : DB) (u : Nat) (a p : String) (o : Order)
    (h : OrderViewSet.checkout db u a p = (db2, .ok o)) :
    ∃ cart, db.cart = some cart ∧
      o.items = cart.items.map (fun it =>
        (⟨productName db it.productId, productPrice db it.productId, it.quantity⟩ : OrderItem)) ∧
      (∀ oi ∈ o.items, oi.subtotal = oi.product_price * oi.quantity) ∧
      o ∈ db2.orders ∧
      (∀ pid newPrice newName,
        (setProductPrice db2 pid newPrice).orders = db2.orders ∧
        (setProductName db2 pid newName).orders = db2.orders ∧
        (deleteProduct db2 pid).orders = db2.orders) := by
  rcases checkout_dichotomy db u a p with ⟨e, heq⟩ | ⟨cart, hc, hne, hok⟩
  · rw [heq] at h
    simp at h
  · rw [hok] at h
    simp only [Prod.mk.injEq, Except.ok.injEq] at h
    obtain ⟨hdb, ho⟩ := h
    refine ⟨cart, hc, ?_, ?_, ?_, ?_⟩
    · rw [← ho]
      rfl
    · intro oi _
      rfl
    · rw [← hdb, ← ho]
      exact List.mem_append_right _ (List.mem_singleton.mpr rfl)
    · intro pid newPrice newName
      exact ⟨rfl, rfl, rfl⟩

/-- Witness for **C8** at the spec §8 example checkout: the snapshot
lines are A at 10.00 × 2 and B at 3.50 × 1, the order is stored, and
repricing product 1 afterwards leaves the stored orders unchanged. -/
theorem orderitem_snapshot_frozen_witness :
    (orderOf exampleDB 7 "Jalan Merdeka 17, Bandung" "081234567890"
      ⟨[⟨1, 1, 2⟩, ⟨2, 2, 1⟩]⟩).items = [⟨"A", 1000, 2⟩, ⟨"B", 350, 1⟩] ∧
    orderOf exampleDB 7 "Jalan Merdeka 17, Bandung" "081234567890" ⟨[⟨1, 1, 2⟩, ⟨2, 2, 1⟩]⟩
      ∈ ((OrderViewSet.checkout exampleDB 7 "Jalan Merdeka 17, Bandung" "081234567890").1).orders ∧
    (setProductPrice (OrderViewSet.checkout exampleDB 7 "Jalan Merdeka 17, Bandung"
        "081234567890").1 1 9999).orders
      = ((OrderViewSet.checkout exampleDB 7 "Jalan Merdeka 17, Bandung" "081234567890").1).orders := by
  have h := orderitem_snapshot_frozen exampleDB
    (OrderViewSet.checkout exampleDB 7 "Jalan Merdeka 17, Bandung" "081234567890").1
    7 "Jalan Merdeka 17, Bandung" "081234567890"
    (orderOf exampleDB 7 "Jalan Merdeka 17, Bandung" "081234567890" ⟨[⟨1, 1, 2⟩, ⟨2, 2, 1⟩]⟩)
    rfl
  obtain ⟨cart, hc, hitems, hsub, hmem, hmut⟩ := h
  exact ⟨by decide, hmem, (hmut 1 9999 "renamed").1⟩

/-- **C9**: a cart's total_items is the sum of its item quantities, its
total_price is recomputed from the current items and live product prices
on every read, and repricing a product shifts the re-read total by the
cart's quantity of that product times the price change — with no
modification of the cart itself. -/
theorem cart_totals_live_reads (db : DB) (c : Cart) (pid : Nat) (pr : Product) (newPrice : Int)
    (hp : db.products pid = some pr) :
    Cart.total_items c = (c.items.map CartItem.quantity).sum ∧
    Cart.total_price db c
      = (c.items.map (fun it => it.quantity * productPrice db it.productId)).sum ∧
    Cart.total_price (setProductPrice db pid newPrice) c
      = Cart.total_price db c + qtySum c.items pid * (newPrice - pr.price) := by
  refine ⟨rfl, rfl, ?_⟩
  obtain ⟨items⟩ := c
  induction items with
  | nil => simp [Cart.total_price, qtySum]
  | cons it rest ih =>
    simp only [Cart.total_price, List.map_cons, List.sum_cons] at ih ⊢
    rw [setProductPrice_productPrice db pid pr newPrice hp, qtySum_cons, ih]
    by_cases h : it.productId = pid
    · have hpp : productPrice db pid = pr.price := by
        simp [productPrice, hp]
      simp only [h, eq_self_iff_true, if_true]
      rw [hpp]
      ring
    · simp only [if_neg h]
      ring

/-- Witness for **C9**: a one-line cart of 2 × product 1; repricing
product 1 from 10.00 to 12.00 moves the re-read total from 20.00 to
24.00. -/
theorem cart_totals_live_reads_witness :
    exampleDB.products 1 = some ⟨"A", 1000, 5⟩ ∧
    Cart.total_price exampleDB ⟨[⟨1, 1, 2⟩]⟩ = 2000 ∧
    Cart.total_price (setProductPrice exampleDB 1 1200) ⟨[⟨1, 1, 2⟩]⟩ = 2400 := by
  have h := cart_totals_live_reads exampleDB ⟨[⟨1, 1, 2⟩]⟩ 1 ⟨"A", 1000, 5⟩ 1200 rfl
  refine ⟨rfl, by decide, ?_⟩
  rw [h.2.2]
  decide

end Store

namespace Store

/-- Witness for the amended **C10** theorem: on the one-item state,
quantity 0 and a missing quantity are both rejected as required fields,
and a nonzero request is the only way past that guard. -/
theorem update_item_zero_required_witness :
    CartViewSet.update_item oneItemDB (some 1) none = (oneItemDB, .error .fieldsRequired) ∧
    CartViewSet.update_item oneItemDB (some 1) (some 0) = (oneItemDB, .error .fieldsRequired) ∧
    (∃ i n, (some 1 : Option Nat) = some i ∧ i ≠ 0 ∧ (some 5 : Option Int) = some n ∧ n ≠ 0) :=
  have h := update_item_zero_required oneItemDB (some 1) (some 5)
  ⟨h.1, h.2.1, h.2.2.1 (fun hcontra => Except.noConfusion hcontra)⟩

end Store
